import Mathlib

/-!
Verification development for the PIM product-attribute extraction pipeline.

Shallow embedding of the repository's core data flow:
* `src/pipeline.py` — `_parse_agent_output`, `_format_result`,
  `extract_product_attributes`, `process_batch_async`, `search_google_custom`;
* `src/agents.py` — the `ATTRIBUTES` catalog;
* `src/code/batch_processor.py` — `generate_summary_report`,
  `export_results_to_csv`;
* the attribute-merge precedence of the spec (the repository delegates the
  merge to a language-model prompt in `src/code/agents.py`, so the merger is
  modelled from the specification text).

Python values flowing through the pipeline are JSON-like: dictionaries,
lists, strings, integers, booleans and `None`.  `Json.null` plays the role of
Python `None` (as produced by `json.loads` for JSON `null`).  Python
dictionaries are modelled as association lists looked up at the first
matching key; dictionaries built by the embedded code never repeat a key.
-/

inductive Json where
  | null : Json
  | bool : Bool → Json
  | num : Int → Json
  | str : String → Json
  | arr : List Json → Json
  | obj : List (String × Json) → Json

abbrev PyDict := List (String × Json)

/-- First-match association-list lookup: Python `d[k]` / key presence. -/
def pyLookup : PyDict → String → Option Json
  | [], _ => none
  | (k, v) :: rest, key => if k = key then some v else pyLookup rest key

/-- Python `d.get(k)`: `None` when the key is absent. -/
def pyGet (d : PyDict) (k : String) : Json :=
  (pyLookup d k).getD Json.null

/-- Python `d.get(k, dflt)`: the default is used only when the key is absent. -/
def pyGetD (d : PyDict) (k : String) (dflt : Json) : Json :=
  (pyLookup d k).getD dflt

/-- Python truthiness of a JSON-like value (`if attr_value:`). -/
def pyTruthy : Json → Bool
  | .null => false
  | .bool b => b
  | .num n => !(n == 0)
  | .str s => !(s == "")
  | .arr l => !(l.isEmpty)
  | .obj l => !(l.isEmpty)

def Json.isNull : Json → Bool
  | .null => true
  | _ => false

def Json.isObj : Json → Bool
  | .obj _ => true
  | _ => false

/-- Python `str(value)` for the scalar values the pipeline writes into CSV
rows.  Container rendering (never produced in a cell by this pipeline)
approximates CPython's `str`. -/
def pyStr : Json → String
  | .null => "None"
  | .bool b => if b then "True" else "False"
  | .num n => toString n
  | .str s => s
  | .arr _ => "[...]"
  | .obj _ => "\x7b...\x7d"

/-- `ATTRIBUTES` from `src/agents.py`, the catalog imported by
`src/pipeline.py`. -/
def ATTRIBUTES : List String :=
  ["Color", "Body Material", "Dimensions", "Weight",
   "Sensor Type", "Sensor Size", "Megapixels", "ISO Range",
   "Lens Mount", "Viewfinder Type", "Display Type", "Display Size",
   "Autofocus System", "Video Capabilities", "Connectivity Features",
   "Battery Type", "Memory Card Slot", "USB Port Type", "Hot Shoe Mount",
   "Image Stabilization",
   "Shutter Speed Range", "Continuous Shooting Speed"]

/-! ### Python string primitives used by the fence-stripping code -/

/-- Scan of `str.find` starting at absolute index `i` over the remaining
characters. -/
def pyFindAux (needle : List Char) : List Char → Nat → Int
  | [], i => if needle.isEmpty then (i : Int) else -1
  | c :: t, i =>
    if needle.isPrefixOf (c :: t) then (i : Int) else pyFindAux needle t (i + 1)

/-- Python `hay.find(needle, start)`: smallest index `≥ start` where `needle`
occurs, `-1` when absent. -/
def pyFindFrom (needle hay : List Char) (start : Nat) : Int :=
  pyFindAux needle (hay.drop start) start

/-- Python slice `s[a:b]` for `a ≥ 0`; a negative `b` counts from the end. -/
def pySlice (t : List Char) (a : Nat) (b : Int) : List Char :=
  let n := t.length
  let b' : Nat := if b < 0 then ((n : Int) + b).toNat else min b.toNat n
  (t.take b').drop a

/-- Python `str.strip()` (whitespace on both ends). -/
def pyStrip (t : List Char) : List Char :=
  ((t.dropWhile Char.isWhitespace).reverse.dropWhile Char.isWhitespace).reverse

/-- The markdown-fence removal of `_parse_agent_output`
(`src/pipeline.py` lines 242-250): when a fenced block marker occurs, keep
the stripped text between the marker and the next fence. -/
def stripFencesL (t : List Char) : List Char :=
  if 0 ≤ pyFindFrom "```json".data t 0 then
    let a := (pyFindFrom "```json".data t 0).toNat + 7
    pyStrip (pySlice t a (pyFindFrom "```".data t a))
  else if 0 ≤ pyFindFrom "```".data t 0 then
    let a := (pyFindFrom "```".data t 0).toNat + 3
    pyStrip (pySlice t a (pyFindFrom "```".data t a))
  else t

/-! ### `_format_result` (src/pipeline.py lines 280-315) -/

/-- One attribute slot: `raw_attrs.get(attr_name)`, unwrapping
`attr_value.get("value")` when the value is a dict (the
source/confidence-annotated form). -/
def flattenAttr (rawAttrs : PyDict) (a : String) : Json :=
  match pyGet rawAttrs a with
  | .obj sub => pyGet sub "value"
  | v => v

/-- `v is not None and v != "null"`. -/
def pyFilled : Json → Bool
  | .null => false
  | .str s => !(s == "null")
  | _ => true

/-- The `fill_rate` percentage string.  The source formats the CPython float
`filled / len(ATTRIBUTES) * 100` with one decimal; here the ratio is rendered
by exact rational rounding (no claim depends on this field). -/
def fillRateStr (filled total : Nat) : String :=
  let tenths := (filled * 1000 + total / 2) / total
  toString (tenths / 10) ++ "." ++ toString (tenths % 10) ++ "%"

/-- `_format_result`.  An `Except.error` models the `AttributeError` raised
when `result_data` (or its `"attributes"` entry) is not a dict — in the
source that exception escapes to the caller's `except` block. -/
def format_result (result_data : Json) (product_name : String)
    (image_count : Nat) (image_paths : List String) : Except String PyDict :=
  match result_data with
  | .obj kvs =>
    match pyGetD kvs "attributes" (.obj []) with
    | .obj rawAttrs =>
      let attributes := ATTRIBUTES.map (fun a => (a, flattenAttr rawAttrs a))
      let filled := attributes.countP (fun av => pyFilled av.2)
      .ok [("product_name", .str product_name),
           ("image_count", .num (image_count : Int)),
           ("image_paths", .arr (image_paths.map .str)),
           ("attributes", .obj attributes),
           ("product_description", pyGetD kvs "product_description" (.str "")),
           ("fill_rate", .str (fillRateStr filled ATTRIBUTES.length)),
           ("filled_attributes", .num (filled : Int)),
           ("total_attributes", .num (ATTRIBUTES.length : Int)),
           ("status", .str "success")]
    | _ => .error "AttributeError"
  | _ => .error "AttributeError"

/-! ### `_parse_agent_output` (src/pipeline.py lines 215-278) -/

/-- A `genai` content object: its `parts` attribute, when present, is a list
of parts whose `text` is either a string or `None`/absent (`none`). -/
structure Content where
  parts : Option (List (Option String))

/-- The duck-typed shapes `_parse_agent_output` distinguishes with
`hasattr`/`isinstance`: an event-like object (possibly carrying `parts`
and/or `content`), a plain dict, or anything else. -/
inductive AgentResult where
  | objLike (parts : Option (List (Option String))) (content : Option Content)
  | dict (d : PyDict)
  | other

/-- `[p.text for p in parts if hasattr(p, 'text') and p.text]`. -/
def truthyTexts (ps : List (Option String)) : List String :=
  (ps.filterMap id).filter (fun s => !(s == ""))

/-- Text extraction from a content's parts: joined texts when the parts list
is non-empty and at least one text is truthy. -/
def partsText (ps : List (Option String)) : Option String :=
  if ps.isEmpty then none
  else
    let tps := truthyTexts ps
    if tps.isEmpty then none else some (String.join tps)

def contentText : Option Content → Option String
  | some c =>
    match c.parts with
    | some ps => partsText ps
    | none => none
  | none => none

/-- `raw_text` as extracted by lines 225-236: the `parts` branch is entered
whenever a non-empty `parts` attribute exists (even when no text survives the
truthiness filter, in which case no other branch runs). -/
def rawTextOf : AgentResult → Option String
  | .objLike (some ps) c => if ps.isEmpty then contentText c else partsText ps
  | .objLike none c => contentText c
  | .dict _ => none
  | .other => none

/-- Fallback profile of lines 259-267 (`"Could not parse agent output"`). -/
def noParseProfile (product_name : String) (image_count : Nat)
    (image_paths : List String) : PyDict :=
  [("product_name", .str product_name),
   ("image_count", .num (image_count : Int)),
   ("image_paths", .arr (image_paths.map .str)),
   ("attributes", .obj []),
   ("product_description", .str ""),
   ("status", .str "partial"),
   ("error", .str "Could not parse agent output")]

/-- Fallback profile of the outer `except` block, lines 269-278. -/
def excProfile (product_name : String) (image_count : Nat)
    (image_paths : List String) (e : String) : PyDict :=
  [("product_name", .str product_name),
   ("image_count", .num (image_count : Int)),
   ("image_paths", .arr (image_paths.map .str)),
   ("attributes", .obj []),
   ("error", .str ("Parsing error: " ++ e)),
   ("status", .str "partial")]

/-- Lines 240-267: fence-strip the extracted text (when any), attempt the
strict decode, and fall back to the degraded profile otherwise.  `loads` is
`json.loads`, an `Option` since its decode failure is caught locally by
`except json.JSONDecodeError`. -/
def parseFromText (loads : String → Option Json) (rt : Option String)
    (product_name : String) (image_count : Nat) (image_paths : List String) :
    Except String PyDict :=
  match rt with
  | some t =>
    match loads (String.mk (stripFencesL t.data)) with
    | some j => format_result j product_name image_count image_paths
    | none => .ok (noParseProfile product_name image_count image_paths)
  | none => .ok (noParseProfile product_name image_count image_paths)

/-- Body of the `try` block of `_parse_agent_output`: a dict result is
formatted directly (line 238); otherwise the extracted `raw_text` is
decoded. -/
def parseInner (loads : String → Option Json) (agent_result : AgentResult)
    (product_name : String) (image_count : Nat) (image_paths : List String) :
    Except String PyDict :=
  match agent_result with
  | .dict d => format_result (.obj d) product_name image_count image_paths
  | .objLike ps c =>
    parseFromText loads (rawTextOf (.objLike ps c)) product_name image_count
      image_paths
  | .other =>
    parseFromText loads (rawTextOf .other) product_name image_count image_paths

/-- `_parse_agent_output`: the outer `except Exception` turns any escaped
error into the degraded `"Parsing error: ..."` profile, so the function
always returns a profile dict. -/
def parse_agent_output (loads : String → Option Json)
    (agent_result : AgentResult) (product_name : String) (image_count : Nat)
    (image_paths : List String) : PyDict :=
  match parseInner loads agent_result product_name image_count image_paths with
  | .ok p => p
  | .error e => excProfile product_name image_count image_paths e

/-! ### `extract_product_attributes` and `process_batch_async`
(src/pipeline.py lines 93-213 and 317-353)

Collaborators are explicit parameters: `findImages` is the filesystem
collaborator (`find_product_images`, which raises on a missing folder),
`runAgent` covers everything between the image check and the parse —
image encoding plus the agent runner — and may raise. -/

/-- The `{"product_name", "error", "status": "failed"}` dict built by the
`except` blocks of `extract_product_attributes` and `process_batch_async`. -/
def failProfile (product_name e : String) : PyDict :=
  [("product_name", .str product_name),
   ("error", .str e),
   ("status", .str "failed")]

/-- The early return of lines 116-121 for an empty image set. -/
def noImagesProfile (product_name product_folder : String) : PyDict :=
  failProfile product_name ("No images found in " ++ product_folder)

def extract_product_attributes
    (findImages : String → Except String (List String))
    (runAgent : String → List String → Except String AgentResult)
    (loads : String → Option Json)
    (product_name product_folder : String) : PyDict :=
  match findImages product_folder with
  | .error e => failProfile product_name e
  | .ok images =>
    if images.isEmpty then noImagesProfile product_name product_folder
    else
      match runAgent product_name images with
      | .error e => failProfile product_name e
      | .ok r => parse_agent_output loads r product_name images.length images

/-- One iteration of the batch loop: the awaited per-item outcome is either
a returned profile or a raised exception, which the `except` block converts
into a failure record. -/
def processOne (item : String × Except String PyDict) : PyDict :=
  match item.2 with
  | .ok r => r
  | .error e => failProfile item.1 e

/-- `process_batch_async`: the loop body for the discovered product list
(each entry paired with its processing outcome). -/
def process_batch_async (items : List (String × Except String PyDict)) :
    List PyDict :=
  items.map processOne

/-! ### `generate_summary_report` (src/code/batch_processor.py lines 136-191) -/

/-- `r.get("error") is None`, the success test of the report. -/
def successB (r : PyDict) : Bool :=
  (pyGet r "error").isNull

/-- `prod.get("attributes", {})` as an item list.  A non-mapping value under
the `"attributes"` key would raise in the source; the pipeline only ever
stores mappings there, so that case yields the empty contribution here. -/
def attrItems (r : PyDict) : PyDict :=
  match pyLookup r "attributes" with
  | some (.obj l) => l
  | _ => []

/-- One `attribute_stats` update: `total += 1`, and `filled += 1` when the
value is truthy; a first occurrence appends a fresh `(filled, total)` slot. -/
def bumpStat : List (String × Nat × Nat) → String → Bool →
    List (String × Nat × Nat)
  | [], a, f => [(a, (if f then 1 else 0), 1)]
  | (m, fi, tot) :: rest, a, f =>
    if m = a then (m, fi + (if f then 1 else 0), tot + 1) :: rest
    else (m, fi, tot) :: bumpStat rest a f

/-- The inner loop over one successful profile's attribute items. -/
def profileStats (st : List (String × Nat × Nat)) (r : PyDict) :
    List (String × Nat × Nat) :=
  (attrItems r).foldl (fun st' av => bumpStat st' av.1 (pyTruthy av.2)) st

/-- `attribute_stats` accumulated over the successful profiles only. -/
def attributeStats (results : List PyDict) : List (String × Nat × Nat) :=
  (results.filter successB).foldl profileStats []

/-- Lookup of an accumulated `(filled, total)` pair, `(0, 0)` when the
attribute never occurred. -/
def statLookup (st : List (String × Nat × Nat)) (a : String) : Nat × Nat :=
  match st with
  | [] => (0, 0)
  | (m, fi, tot) :: rest => if m = a then (fi, tot) else statLookup rest a

/-- The summary-report dictionary.  `timestamp` (wall clock) is omitted;
`success_rate` and the per-attribute `completion_rate` are the exact
rationals whose percent renderings the source stores. -/
structure SummaryReport where
  total_products : Nat
  successful : Nat
  failed : Nat
  success_rate : Option ℚ
  total_images_processed : Int
  attribute_completion : List (String × ℚ × Nat × Nat)
  failed_products : List (Json × Json)

/-- `r.get("image_count", 0)` summed as an integer (the pipeline stores
integers there). -/
def pyInt : Json → Int
  | .num n => n
  | _ => 0

def generate_summary_report (results : List PyDict) : SummaryReport :=
  let successfulL := results.filter successB
  let failedL := results.filter (fun r => !(successB r))
  let stats := attributeStats results
  { total_products := results.length
    successful := successfulL.length
    failed := failedL.length
    success_rate :=
      if results.isEmpty then none
      else some ((successfulL.length : ℚ) / (results.length : ℚ))
    total_images_processed :=
      (successfulL.map (fun r => pyInt (pyGetD r "image_count" (.num 0)))).sum
    attribute_completion :=
      stats.filterMap (fun s =>
        if 0 < s.2.2 then
          some (s.1, ((s.2.1 : ℚ) / (s.2.2 : ℚ)), s.2.1, s.2.2)
        else none)
    failed_products :=
      failedL.map (fun r => (pyGet r "product_name", pyGet r "error")) }

/-! ### `export_results_to_csv` (src/code/batch_processor.py lines 79-134)

The embedding produces the header and the rows handed to `csv.writer`;
`csvCell` is the writer's rendering of one cell into the file. -/

/-- The keys contributed by one profile to `all_attributes` (the guard
`"attributes" in prod and isinstance(prod["attributes"], dict)`). -/
def attrKeysOf (r : PyDict) : List String :=
  match pyLookup r "attributes" with
  | some (.obj l) => l.map Prod.fst
  | _ => []

/-- Python string comparison: lexicographic over code points (the character
list underlying the string). -/
def strLe (a b : String) : Prop :=
  a.data ≤ b.data

instance : DecidableRel strLe := fun a b =>
  inferInstanceAs (Decidable (a.data ≤ b.data))

/-- `sorted(list(all_attributes))`: the distinct observed attribute names in
ascending string order. -/
def sortedAttrNames (results : List PyDict) : List String :=
  List.insertionSort strLe ((results.map attrKeysOf).flatten.dedup)

def csvFixedHeader : List String :=
  ["Product Name", "Description", "Images Processed", "Status"]

def csvHeader (results : List PyDict) : List String :=
  csvFixedHeader ++ sortedAttrNames results

/-- `attrs.get(attr, "")` for one row: the empty-string default applies only
when the key is absent (a stored `None` stays `None` and is rendered as the
empty string by the writer). -/
def attrCell (prod : PyDict) (a : String) : Json :=
  match pyLookup prod "attributes" with
  | some (.obj l) => pyGetD l a (.str "")
  | _ => .str ""

/-- The four fixed cells of a row (lines 119-124). -/
def csvFixedCells (prod : PyDict) : List Json :=
  [pyGetD prod "product_name" (.str ""),
   pyGetD prod "product_description" (.str ""),
   .str (pyStr (pyGetD prod "image_count" (.str ""))),
   .str (if (pyGet prod "error").isNull then "Success" else "Failed")]

def csvRow (attributeList : List String) (prod : PyDict) : List Json :=
  csvFixedCells prod ++ attributeList.map (attrCell prod)

def exportRows (results : List PyDict) : List (List Json) :=
  results.map (csvRow (sortedAttrNames results))

/-- What `csv.writer` writes for a cell value: `None` becomes the empty
string, strings are written as-is, other scalars via `str`. -/
def csvCell : Json → String
  | .null => ""
  | v => pyStr v

/-! ### `search_google_custom` (src/pipeline.py lines 64-91)

The HTTP layer is a collaborator parameter; its `Except.error` covers
`requests.get` failures (connection errors, timeouts).  `raise_for_status`
raises for 4xx/5xx status codes and `response.json()` raises when the body
is undecodable (`body = none`). -/

/-- `config.py` is not part of the sources; the credential values are
irrelevant to the pipeline's control flow. -/
def GOOGLE_CSE_API_KEY : String := "GOOGLE_CSE_API_KEY"

def GOOGLE_CSE_CX : String := "GOOGLE_CSE_CX"

structure CseParams where
  key : String
  cx : String
  q : String
  num : Int

/-- The query parameters built at lines 68-73, with
`"num": min(num_results, 10)`. -/
def cseRequestParams (query : String) (num_results : Int) : CseParams :=
  { key := GOOGLE_CSE_API_KEY, cx := GOOGLE_CSE_CX, q := query,
    num := min num_results 10 }

structure HttpResponse where
  status : Nat
  body : Option Json

/-- One result entry: `item.get(...)` raises unless the item is a dict. -/
def itemFields (item : Json) : Except String PyDict :=
  match item with
  | .obj kvs =>
    .ok [("title", pyGetD kvs "title" (.str "")),
         ("link", pyGetD kvs "link" (.str "")),
         ("snippet", pyGetD kvs "snippet" (.str ""))]
  | _ => .error "AttributeError"

def collectItems : List Json → Except String (List PyDict)
  | [] => .ok []
  | it :: rest =>
    match itemFields it, collectItems rest with
    | .error e, _ => .error e
    | .ok _, .error e => .error e
    | .ok f, .ok r => .ok (f :: r)

def search_google_custom (http : CseParams → Except String HttpResponse)
    (query : String) (num_results : Int) : List PyDict :=
  let attempt : Except String (List PyDict) :=
    match http (cseRequestParams query num_results) with
    | .error e => .error e
    | .ok resp =>
      if 400 ≤ resp.status then .error "HTTPError"
      else
        match resp.body with
        | none => .error "JSONDecodeError"
        | some data =>
          match data with
          | .obj kvs =>
            match pyGetD kvs "items" (.arr []) with
            | .arr items => collectItems items
            | _ => .error "TypeError"
          | _ => .error "AttributeError"
  match attempt with
  | .ok r => r
  | .error _ => []

/-! ### Attribute merging

Modelled from the spec: the repository performs candidate merging inside the
`AttributeEnrichmentAgent` prompt of `src/code/agents.py` (executed by the
language model, not by repository code), so the merger below follows §4.2 of
the specification: precedence over source tier
`external-search > visual > inferred > default > unknown`, higher confidence
within a tier, first-seen on full ties, a configured default filling the
slot when no higher-tier candidate exists, and `(null, unknown, low)` when
nothing is available. -/

inductive Source where
  | visual
  | externalSearch
  | inferred
  | default
  | unknown
deriving DecidableEq

inductive Confidence where
  | high
  | medium
  | low
deriving DecidableEq

structure AttributeRecord where
  value : Option String
  source : Source
  confidence : Confidence
deriving DecidableEq

def sourceTier : Source → Nat
  | .externalSearch => 4
  | .visual => 3
  | .inferred => 2
  | .default => 1
  | .unknown => 0

def confRank : Confidence → Nat
  | .high => 3
  | .medium => 2
  | .low => 1

/-- Total precedence rank: the tier dominates, confidence breaks ties inside
a tier (confidence ranks stay below the tier stride of 4). -/
def recordRank (r : AttributeRecord) : Nat :=
  sourceTier r.source * 4 + confRank r.confidence

/-- Keep the incumbent unless the challenger ranks strictly higher
(first-seen wins on ties). -/
def pickBetter (a b : AttributeRecord) : AttributeRecord :=
  if recordRank a < recordRank b then b else a

/-- Modelled from the spec (§4.2): resolve one attribute from its candidate
list and optional configured default. -/
def mergeAttribute (cands : List AttributeRecord)
    (dflt : Option AttributeRecord) : AttributeRecord :=
  match cands ++ dflt.toList with
  | [] => ⟨none, .unknown, .low⟩
  | c :: cs => cs.foldl pickBetter c

/-- Modelled from the spec (§4.2): merge over a whole catalog. -/
def mergeAll (catalog : List String)
    (cands : String → List AttributeRecord)
    (defaults : String → Option AttributeRecord) :
    List (String × AttributeRecord) :=
  catalog.map (fun a => (a, mergeAttribute (cands a) (defaults a)))

/-! ## Helper lemmas -/

/-- A successfully formatted result comes from a dict with a dict-valued
(or absent) `"attributes"` entry, and is precisely the standardized
profile literal. -/
lemma format_result_ok_shape {rd : Json} {pn : String} {ic : Nat}
    {ips : List String} {p : PyDict}
    (h : format_result rd pn ic ips = .ok p) :
    ∃ kvs rawAttrs, rd = .obj kvs ∧
      pyGetD kvs "attributes" (.obj []) = .obj rawAttrs ∧
      p = [("product_name", .str pn),
           ("image_count", .num (ic : Int)),
           ("image_paths", .arr (ips.map .str)),
           ("attributes",
             .obj (ATTRIBUTES.map (fun a => (a, flattenAttr rawAttrs a)))),
           ("product_description", pyGetD kvs "product_description" (.str "")),
           ("fill_rate", .str (fillRateStr
             ((ATTRIBUTES.map (fun a => (a, flattenAttr rawAttrs a))).countP
               (fun av => pyFilled av.2)) ATTRIBUTES.length)),
           ("filled_attributes", .num
             (((ATTRIBUTES.map (fun a => (a, flattenAttr rawAttrs a))).countP
               (fun av => pyFilled av.2) : Nat) : Int)),
           ("total_attributes", .num (ATTRIBUTES.length : Int)),
           ("status", .str "success")] := by
  cases rd with
  | obj kvs =>
    rw [format_result] at h
    rcases hA : pyGetD kvs "attributes" (.obj []) with _ | b | n | s | l | rawAttrs <;>
      rw [hA] at h
    · exact Except.noConfusion h
    · exact Except.noConfusion h
    · exact Except.noConfusion h
    · exact Except.noConfusion h
    · exact Except.noConfusion h
    · exact ⟨kvs, rawAttrs, rfl, hA, (Except.ok.inj h).symm⟩
  | null => exact Except.noConfusion h
  | bool b => exact Except.noConfusion h
  | num n => exact Except.noConfusion h
  | str s => exact Except.noConfusion h
  | arr l => exact Except.noConfusion h

/-- Field values of a successfully formatted profile. -/
lemma format_result_ok_fields {rd : Json} {pn : String} {ic : Nat}
    {ips : List String} {p : PyDict}
    (h : format_result rd pn ic ips = .ok p) :
    pyGet p "product_name" = .str pn ∧ pyGet p "status" = .str "success" := by
  obtain ⟨kvs, rawAttrs, -, -, rfl⟩ := format_result_ok_shape h
  constructor <;> simp [pyGet, pyLookup]

/-- `parseFromText` either hands a decoded payload to `format_result` or
falls back to the degraded profile. -/
lemma parseFromText_shape (loads : String → Option Json) (rt : Option String)
    (pn : String) (ic : Nat) (ips : List String) :
    (∃ j, parseFromText loads rt pn ic ips = format_result j pn ic ips) ∨
      parseFromText loads rt pn ic ips = .ok (noParseProfile pn ic ips) := by
  rcases rt with - | t
  · exact Or.inr rfl
  · rcases h2 : loads (String.mk (stripFencesL t.data)) with - | j
    · right
      simp [parseFromText, h2]
    · left
      exact ⟨j, by simp [parseFromText, h2]⟩

/-- `parseInner` either hands a decoded payload to `format_result` or falls
back to the degraded profile. -/
lemma parseInner_shape (loads : String → Option Json) (r : AgentResult)
    (pn : String) (ic : Nat) (ips : List String) :
    (∃ j, parseInner loads r pn ic ips = format_result j pn ic ips) ∨
      parseInner loads r pn ic ips = .ok (noParseProfile pn ic ips) := by
  cases r with
  | dict d => exact Or.inl ⟨.obj d, rfl⟩
  | objLike ps c =>
    simp only [parseInner]
    exact parseFromText_shape loads _ pn ic ips
  | other =>
    simp only [parseInner]
    exact parseFromText_shape loads _ pn ic ips

/-! ## Claims -/

/-- Claim C1: for every possible agent output value, `_parse_agent_output`
returns a profile (the function is total and every internal exception is
converted): the returned dict always carries the item's `product_name`, and
its status is either `success` (structured decode succeeded) or `partial`
with an error message recorded (degraded result, never a raised error). -/
theorem c1_parse_agent_output_total (loads : String → Option Json)
    (r : AgentResult) (pn : String) (ic : Nat) (ips : List String) :
    pyGet (parse_agent_output loads r pn ic ips) "product_name" = .str pn ∧
    (pyGet (parse_agent_output loads r pn ic ips) "status" = .str "success" ∨
      (pyGet (parse_agent_output loads r pn ic ips) "status" = .str "partial" ∧
        (pyGet (parse_agent_output loads r pn ic ips) "error").isNull = false)) := by
  rcases parseInner_shape loads r pn ic ips with ⟨j, hj⟩ | hnp
  · rw [parse_agent_output, hj]
    rcases h : format_result j pn ic ips with e | p
    · constructor <;> simp [excProfile, pyGet, pyLookup, Json.isNull]
    · obtain ⟨h1, h2⟩ := format_result_ok_fields h
      exact ⟨h1, Or.inl h2⟩
  · rw [parse_agent_output, hnp]
    constructor <;> simp [noParseProfile, pyGet, pyLookup, Json.isNull]

/-- Claim C2: every successfully formatted profile has exactly one
attributes entry per catalog name: the key list is exactly `ATTRIBUTES`,
without repetition, so its length equals the catalog size. -/
theorem c2_attributes_exactly_catalog (rd : Json) (pn : String) (ic : Nat)
    (ips : List String) (p : PyDict)
    (h : format_result rd pn ic ips = .ok p) :
    ∃ attrs, pyLookup p "attributes" = some (.obj attrs) ∧
      attrs.map Prod.fst = ATTRIBUTES ∧
      (attrs.map Prod.fst).Nodup ∧
      attrs.length = ATTRIBUTES.length := by
  obtain ⟨kvs, rawAttrs, -, -, rfl⟩ := format_result_ok_shape h
  have hk : (ATTRIBUTES.map (fun a => (a, flattenAttr rawAttrs a))).map
      Prod.fst = ATTRIBUTES := by
    rw [List.map_map]
    exact List.map_id ATTRIBUTES
  refine ⟨ATTRIBUTES.map (fun a => (a, flattenAttr rawAttrs a)), ?_, hk, ?_, ?_⟩
  · simp [pyLookup]
  · rw [hk]
    decide
  · simp

/-- Witness for C2 at a concrete decoded payload. -/
def exProfile : PyDict :=
  (format_result (Json.obj []) "CamX" 1 []).toOption.getD []

theorem c2_attributes_exactly_catalog_witness :
    format_result (Json.obj []) "CamX" 1 [] = .ok exProfile ∧
    ∃ attrs, pyLookup exProfile "attributes" = some (.obj attrs) ∧
      attrs.map Prod.fst = ATTRIBUTES ∧
      (attrs.map Prod.fst).Nodup ∧
      attrs.length = ATTRIBUTES.length :=
  ⟨rfl, c2_attributes_exactly_catalog (Json.obj []) "CamX" 1 [] exProfile rfl⟩

/-- Claim C6: when the structured decode of the extracted stage output fails
(`loads` returns nothing on the fence-stripped text), the item is not
aborted: `_parse_agent_output` returns the degraded profile, whose status is
`partial` (not `failed`) and whose attribute contribution is empty. -/
theorem c6_parse_failure_degrades (loads : String → Option Json)
    (r : AgentResult) (pn : String) (ic : Nat) (ips : List String)
    (t : String) (h1 : rawTextOf r = some t)
    (h2 : loads (String.mk (stripFencesL t.data)) = none) :
    parse_agent_output loads r pn ic ips = noParseProfile pn ic ips ∧
    pyGet (noParseProfile pn ic ips) "status" = .str "partial" ∧
    pyLookup (noParseProfile pn ic ips) "attributes" = some (.obj []) ∧
    pyGet (noParseProfile pn ic ips) "status" ≠ .str "failed" := by
  refine ⟨?_, by simp [noParseProfile, pyGet, pyLookup],
    by simp [noParseProfile, pyLookup],
    by simp [noParseProfile, pyGet, pyLookup]⟩
  cases r with
  | dict d => simp [rawTextOf] at h1
  | objLike ps c =>
    have hp : parseInner loads (.objLike ps c) pn ic ips =
        .ok (noParseProfile pn ic ips) := by
      show parseFromText loads (rawTextOf (.objLike ps c)) pn ic ips = _
      rw [h1]
      simp [parseFromText, h2]
    rw [parse_agent_output, hp]
  | other =>
    have hp : parseInner loads .other pn ic ips =
        .ok (noParseProfile pn ic ips) := by
      show parseFromText loads (rawTextOf .other) pn ic ips = _
      rw [h1]
      simp [parseFromText, h2]
    rw [parse_agent_output, hp]

theorem c6_parse_failure_degrades_witness :
    parse_agent_output (fun _ => none) (.objLike (some [some "hi"]) none)
        "CamX" 1 [] = noParseProfile "CamX" 1 [] ∧
    pyGet (noParseProfile "CamX" 1 []) "status" = .str "partial" :=
  ⟨(c6_parse_failure_degrades (fun _ => none)
      (.objLike (some [some "hi"]) none) "CamX" 1 [] "hi" rfl rfl).1,
   (c6_parse_failure_degrades (fun _ => none)
      (.objLike (some [some "hi"]) none) "CamX" 1 [] "hi" rfl rfl).2.1⟩

/-- Claim C4: a raised exception while processing item `k` of a batch is
converted into a `failProfile name error` record at position `k` (carrying
the item's name and the error string), the batch result still has one entry
per item (processing proceeded past `k`), and every position of the result
depends only on the item at that same position. -/
theorem c4_batch_isolation (items : List (String × Except String PyDict))
    (k : Nat) (name e : String)
    (h : items[k]? = some (name, .error e)) :
    (process_batch_async items)[k]? = some (failProfile name e) ∧
    (process_batch_async items).length = items.length ∧
    pyGet (failProfile name e) "product_name" = .str name ∧
    pyGet (failProfile name e) "error" = .str e ∧
    pyGet (failProfile name e) "status" = .str "failed" ∧
    (∀ j : Nat, (process_batch_async items)[j]? = (items[j]?).map processOne) := by
  refine ⟨?_, by simp [process_batch_async],
    by simp [failProfile, pyGet, pyLookup],
    by simp [failProfile, pyGet, pyLookup],
    by simp [failProfile, pyGet, pyLookup], ?_⟩
  · rw [process_batch_async, List.getElem?_map, h]
    rfl
  · intro j
    rw [process_batch_async, List.getElem?_map]

theorem c4_batch_isolation_witness :
    (process_batch_async
        [("A", .ok (noParseProfile "A" 0 [])), ("B", .error "boom")])[1]? =
      some (failProfile "B" "boom") ∧
    (process_batch_async
        [("A", .ok (noParseProfile "A" 0 [])), ("B", .error "boom")]).length =
      ([("A", .ok (noParseProfile "A" 0 [])),
        ("B", (.error "boom" : Except String PyDict))]).length :=
  ⟨(c4_batch_isolation
      [("A", .ok (noParseProfile "A" 0 [])), ("B", .error "boom")]
      1 "B" "boom" rfl).1,
   (c4_batch_isolation
      [("A", .ok (noParseProfile "A" 0 [])), ("B", .error "boom")]
      1 "B" "boom" rfl).2.1⟩

/-- Claim C7: an item whose folder holds zero images short-circuits: the
profile is the `failed` record with error `"No images found in <path>"`,
the outcome does not depend on the agent or decoder collaborators (none is
called), and in the summary report the item is counted in `total_products`
and `failed`, contributes nothing to the per-attribute completion
statistics, yet is listed among the failed products. -/
theorem c7_no_images_short_circuit
    (findImages : String → Except String (List String))
    (runAgent runAgent' : String → List String → Except String AgentResult)
    (loads loads' : String → Option Json)
    (pn pf : String) (others : List PyDict)
    (h : findImages pf = .ok []) :
    extract_product_attributes findImages runAgent loads pn pf =
      noImagesProfile pn pf ∧
    extract_product_attributes findImages runAgent' loads' pn pf =
      extract_product_attributes findImages runAgent loads pn pf ∧
    pyGet (noImagesProfile pn pf) "status" = .str "failed" ∧
    pyGet (noImagesProfile pn pf) "error" =
      .str ("No images found in " ++ pf) ∧
    (generate_summary_report (noImagesProfile pn pf :: others)).total_products =
      others.length + 1 ∧
    (generate_summary_report (noImagesProfile pn pf :: others)).failed =
      (generate_summary_report others).failed + 1 ∧
    attributeStats (noImagesProfile pn pf :: others) = attributeStats others ∧
    (pyGet (noImagesProfile pn pf) "product_name",
      pyGet (noImagesProfile pn pf) "error") ∈
      (generate_summary_report (noImagesProfile pn pf :: others)).failed_products := by
  have hP : successB (noImagesProfile pn pf) = false := by
    simp [successB, noImagesProfile, failProfile, pyGet, pyLookup, Json.isNull]
  refine ⟨?_, ?_,
    by simp [noImagesProfile, failProfile, pyGet, pyLookup],
    by simp [noImagesProfile, failProfile, pyGet, pyLookup],
    by simp [generate_summary_report],
    ?_, ?_, ?_⟩
  · rw [extract_product_attributes, h]
    rfl
  · rw [extract_product_attributes, h, extract_product_attributes, h]
    rfl
  · simp [generate_summary_report, List.filter_cons, hP]
  · simp [attributeStats, List.filter_cons, hP]
  · simp [generate_summary_report, List.filter_cons, hP]

theorem c7_no_images_short_circuit_witness :
    extract_product_attributes (fun _ => .ok []) (fun _ _ => .error "x")
        (fun _ => none) "CamY" "/data/CamY" = noImagesProfile "CamY" "/data/CamY" ∧
    pyGet (noImagesProfile "CamY" "/data/CamY") "error" =
      .str ("No images found in " ++ "/data/CamY") ∧
    (generate_summary_report [noImagesProfile "CamY" "/data/CamY"]).total_products =
      List.length ([] : List PyDict) + 1 :=
  ⟨(c7_no_images_short_circuit (fun _ => .ok []) (fun _ _ => .error "x")
      (fun _ _ => .error "x") (fun _ => none) (fun _ => none)
      "CamY" "/data/CamY" [] rfl).1,
   (c7_no_images_short_circuit (fun _ => .ok []) (fun _ _ => .error "x")
      (fun _ _ => .error "x") (fun _ => none) (fun _ => none)
      "CamY" "/data/CamY" [] rfl).2.2.2.1,
   (c7_no_images_short_circuit (fun _ => .ok []) (fun _ _ => .error "x")
      (fun _ _ => .error "x") (fun _ => none) (fun _ => none)
      "CamY" "/data/CamY" [] rfl).2.2.2.2.1⟩

/-! ### Claim C5 (provenance in finished profiles)

The claim asserts every attribute entry of a finished profile carries its
provenance source and confidence besides the value.  The formatter does the
opposite: whenever the decoded payload annotates an attribute with
`{value, source, confidence}`, only the bare `value` is stored and the
provenance is discarded (src/pipeline.py lines 292-299). -/

def cexAnnotated : Json :=
  Json.obj [("value", .str "Black"), ("source", .str "visual"),
            ("confidence", .str "high")]

def cexData : Json :=
  Json.obj [("attributes", Json.obj [("Color", cexAnnotated)])]

def cexProfile : PyDict :=
  (format_result cexData "CamX" 1 []).toOption.getD []

/-- Counterexample to C5: the finished profile built from an annotated
`Color` record stores the bare string `"Black"` — not a record, and not the
annotated object, so source and confidence are gone. -/
theorem c5_counterexample_provenance_dropped :
    pyLookup (attrItems cexProfile) "Color" = some (Json.str "Black") ∧
    (Json.str "Black").isObj = false ∧
    pyLookup (attrItems cexProfile) "Color" ≠ some cexAnnotated := by
  refine ⟨rfl, rfl, ?_⟩
  intro h
  have h0 : pyLookup (attrItems cexProfile) "Color" = some (Json.str "Black") :=
    rfl
  rw [h0] at h
  have h1 : Json.str "Black" = cexAnnotated := Option.some.inj h
  exact Json.noConfusion h1

/-- First-entry lookup in a keyed map built over a list. -/
lemma pyLookup_map_self (l : List String) (f : String → Json) (a : String)
    (ha : a ∈ l) :
    pyLookup (l.map fun x => (x, f x)) a = some (f a) := by
  induction l with
  | nil => cases ha
  | cons x xs ih =>
    rcases List.mem_cons.mp ha with h | h
    · subst h
      simp [pyLookup]
    · by_cases hx : x = a
      · subst hx
        simp [pyLookup]
      · simpa [pyLookup, hx] using ih h

/-- Claim C5 as amended: in a finished profile each catalog attribute entry
is a bare value; when the decoded payload annotates the attribute with a
`{value, source, confidence}` object, only its `value` field is kept and the
source/confidence provenance is discarded. -/
theorem c5_amended_value_only (rd : Json) (pn : String) (ic : Nat)
    (ips : List String) (p : PyDict) (a : String)
    (h : format_result rd pn ic ips = .ok p) (ha : a ∈ ATTRIBUTES) :
    ∃ rawAttrs v, pyLookup (attrItems p) a = some v ∧
      v = flattenAttr rawAttrs a ∧
      ∀ sub, pyGet rawAttrs a = Json.obj sub → v = pyGet sub "value" := by
  obtain ⟨kvs, rawAttrs, -, -, rfl⟩ := format_result_ok_shape h
  refine ⟨rawAttrs, flattenAttr rawAttrs a, ?_, rfl, ?_⟩
  · have hitems : attrItems
        [("product_name", .str pn),
         ("image_count", .num (ic : Int)),
         ("image_paths", .arr (ips.map Json.str)),
         ("attributes",
           .obj (ATTRIBUTES.map (fun x => (x, flattenAttr rawAttrs x)))),
         ("product_description", pyGetD kvs "product_description" (.str "")),
         ("fill_rate", .str (fillRateStr
           ((ATTRIBUTES.map (fun x => (x, flattenAttr rawAttrs x))).countP
             (fun av => pyFilled av.2)) ATTRIBUTES.length)),
         ("filled_attributes", .num
           (((ATTRIBUTES.map (fun x => (x, flattenAttr rawAttrs x))).countP
             (fun av => pyFilled av.2) : Nat) : Int)),
         ("total_attributes", .num (ATTRIBUTES.length : Int)),
         ("status", .str "success")] =
        ATTRIBUTES.map (fun x => (x, flattenAttr rawAttrs x)) := by
      simp [attrItems, pyLookup]
    rw [hitems]
    exact pyLookup_map_self ATTRIBUTES _ a ha
  · intro sub hsub
    simp [flattenAttr, hsub]

theorem c5_amended_value_only_witness :
    ∃ rawAttrs v, pyLookup (attrItems cexProfile) "Color" = some v ∧
      v = flattenAttr rawAttrs "Color" ∧
      ∀ sub, pyGet rawAttrs "Color" = Json.obj sub → v = pyGet sub "value" :=
  c5_amended_value_only cexData "CamX" 1 [] cexProfile "Color" rfl (by decide)

/-! ### Claim C3 (merge precedence) -/

/-- The fold winner is one of the pooled records. -/
lemma foldl_pickBetter_mem (c : AttributeRecord) (cs : List AttributeRecord) :
    cs.foldl pickBetter c ∈ c :: cs := by
  induction cs generalizing c with
  | nil => exact List.mem_singleton.mpr rfl
  | cons x xs ih =>
    have h1 := ih (pickBetter c x)
    have h2 : pickBetter c x = c ∨ pickBetter c x = x := by
      unfold pickBetter
      split
    -- challenger wins or incumbent stays
      · exact Or.inr rfl
      · exact Or.inl rfl
    rcases List.mem_cons.mp h1 with h | h
    · rcases h2 with h2 | h2 <;> rw [List.foldl_cons, h, h2] <;> simp
    · rw [List.foldl_cons]
      exact List.mem_cons_of_mem _ (List.mem_cons_of_mem _ h)

/-- The fold winner ranks at least as high as every pooled record. -/
lemma foldl_pickBetter_le (c : AttributeRecord) (cs : List AttributeRecord) :
    ∀ x ∈ c :: cs, recordRank x ≤ recordRank (cs.foldl pickBetter c) := by
  induction cs generalizing c with
  | nil =>
    intro x hx
    rw [List.mem_singleton] at hx
    subst hx
    exact le_refl _
  | cons y ys ih =>
    intro x hx
    rw [List.foldl_cons]
    have hc : recordRank c ≤ recordRank (pickBetter c y) := by
      unfold pickBetter
      split
      · omega
      · exact le_refl _
    have hy : recordRank y ≤ recordRank (pickBetter c y) := by
      unfold pickBetter
      split
      · exact le_refl _
      · omega
    have htop : recordRank (pickBetter c y) ≤
        recordRank (ys.foldl pickBetter (pickBetter c y)) :=
      ih (pickBetter c y) _ (List.mem_cons_self _ _)
    rcases List.mem_cons.mp hx with rfl | hx'
    · exact le_trans hc htop
    · rcases List.mem_cons.mp hx' with rfl | hx''
      · exact le_trans hy htop
      · exact ih (pickBetter c y) x (List.mem_cons_of_mem _ hx'')

/-- Claim C3: merging resolves the single winning record by the fixed
precedence `external-search > visual > inferred > default` (source tier
dominates, confidence breaks ties inside a tier): the winner is one of the
pooled candidates and maximizes the precedence rank; in particular the
"Battery Type" scenario `[(default, low, Li-ion), (visual, medium, LP-E6)]`
resolves to `(LP-E6, visual, medium)`. -/
theorem c3_merge_precedence :
    (∀ (cands : List AttributeRecord) (dflt : Option AttributeRecord)
      (x : AttributeRecord), x ∈ cands ++ dflt.toList →
      recordRank x ≤ recordRank (mergeAttribute cands dflt)) ∧
    (∀ (cands : List AttributeRecord) (dflt : Option AttributeRecord),
      cands ++ dflt.toList ≠ [] →
      mergeAttribute cands dflt ∈ cands ++ dflt.toList) ∧
    (∀ a b : AttributeRecord, sourceTier a.source < sourceTier b.source →
      recordRank a < recordRank b) ∧
    mergeAttribute
      [⟨some "Li-ion", Source.default, Confidence.low⟩,
       ⟨some "LP-E6", Source.visual, Confidence.medium⟩] none =
      ⟨some "LP-E6", Source.visual, Confidence.medium⟩ := by
  refine ⟨?_, ?_, ?_, rfl⟩
  · intro cands dflt x hx
    rw [mergeAttribute]
    rcases hp : cands ++ dflt.toList with - | ⟨c, cs⟩
    · rw [hp] at hx
      cases hx
    · rw [hp] at hx
      exact foldl_pickBetter_le c cs x hx
  · intro cands dflt hne
    rw [mergeAttribute]
    rcases hp : cands ++ dflt.toList with - | ⟨c, cs⟩
    · exact absurd hp hne
    · exact foldl_pickBetter_mem c cs
  · intro a b hab
    unfold recordRank
    have h1 : confRank a.confidence ≤ 3 := by
      cases a.confidence <;> simp [confRank]
    have h2 : 1 ≤ confRank b.confidence := by
      cases b.confidence <;> simp [confRank]
    omega

theorem c3_merge_precedence_witness :
    recordRank ⟨some "Li-ion", Source.default, Confidence.low⟩ ≤
      recordRank (mergeAttribute
        [⟨some "Li-ion", Source.default, Confidence.low⟩,
         ⟨some "LP-E6", Source.visual, Confidence.medium⟩] none) ∧
    mergeAttribute
        [⟨some "Li-ion", Source.default, Confidence.low⟩,
         ⟨some "LP-E6", Source.visual, Confidence.medium⟩] none ∈
      ([⟨some "Li-ion", Source.default, Confidence.low⟩,
        ⟨some "LP-E6", Source.visual, Confidence.medium⟩] ++
       (none : Option AttributeRecord).toList) :=
  ⟨c3_merge_precedence.1
      [⟨some "Li-ion", Source.default, Confidence.low⟩,
       ⟨some "LP-E6", Source.visual, Confidence.medium⟩] none
      ⟨some "Li-ion", Source.default, Confidence.low⟩ (by simp),
   c3_merge_precedence.2.1
      [⟨some "Li-ion", Source.default, Confidence.low⟩,
       ⟨some "LP-E6", Source.visual, Confidence.medium⟩] none (by simp)⟩

/-- Claim C10: the web-search wrapper requests `min(num_results, 10) ≤ 10`
results regardless of the argument, and on a request failure, an HTTP error
status, or an undecodable response body it returns the empty list instead of
raising. -/
theorem c10_search_wrapper_total
    (http : CseParams → Except String HttpResponse) (query : String)
    (n : Int) :
    (cseRequestParams query n).num = min n 10 ∧
    (cseRequestParams query n).num ≤ 10 ∧
    (∀ e, http (cseRequestParams query n) = .error e →
      search_google_custom http query n = []) ∧
    (∀ resp, http (cseRequestParams query n) = .ok resp →
      400 ≤ resp.status → search_google_custom http query n = []) ∧
    (∀ resp, http (cseRequestParams query n) = .ok resp → resp.body = none →
      search_google_custom http query n = []) := by
  refine ⟨rfl, min_le_right n 10, ?_, ?_, ?_⟩
  · intro e he
    simp [search_google_custom, he]
  · intro resp hr hs
    simp [search_google_custom, hr, hs]
  · intro resp hr hb
    by_cases hs : 400 ≤ resp.status
    · simp [search_google_custom, hr, hs]
    · simp [search_google_custom, hr, hs, hb]

theorem c10_search_wrapper_total_witness :
    search_google_custom (fun _ => .error "timeout") "canon eos r5 specs" 3 =
      [] ∧
    search_google_custom (fun _ => .ok ⟨403, some (Json.obj [])⟩) "q" 3 = [] ∧
    search_google_custom (fun _ => .ok ⟨200, none⟩) "q" 3 = [] ∧
    (cseRequestParams "q" 25).num = min 25 10 :=
  ⟨(c10_search_wrapper_total (fun _ => .error "timeout")
      "canon eos r5 specs" 3).2.2.1 "timeout" rfl,
   (c10_search_wrapper_total (fun _ => .ok ⟨403, some (Json.obj [])⟩)
      "q" 3).2.2.2.1 ⟨403, some (Json.obj [])⟩ rfl (by decide),
   (c10_search_wrapper_total (fun _ => .ok ⟨200, none⟩)
      "q" 3).2.2.2.2 ⟨200, none⟩ rfl rfl,
   (c10_search_wrapper_total (fun _ => .error "x") "q" 25).1⟩

/-! ### Claim C8 (summary-report statistics) -/

/-- Bumping an attribute updates that attribute's accumulated pair. -/
lemma statLookup_bumpStat_eq (st : List (String × Nat × Nat)) (f : Bool)
    (a : String) :
    statLookup (bumpStat st a f) a =
      ((statLookup st a).1 + (if f then 1 else 0), (statLookup st a).2 + 1) := by
  induction st with
  | nil => simp [bumpStat, statLookup]
  | cons hd tl ih =>
    obtain ⟨m, fi, tot⟩ := hd
    by_cases hma : m = a
    · subst hma
      simp [bumpStat, statLookup]
    · simp [bumpStat, statLookup, hma, ih]

/-- Bumping an attribute leaves every other attribute's pair unchanged. -/
lemma statLookup_bumpStat_ne (st : List (String × Nat × Nat)) (n : String)
    (f : Bool) (a : String) (h : a ≠ n) :
    statLookup (bumpStat st n f) a = statLookup st a := by
  induction st with
  | nil => simp [bumpStat, statLookup, Ne.symm h]
  | cons hd tl ih =>
    obtain ⟨m, fi, tot⟩ := hd
    by_cases hmn : m = n
    · subst hmn
      simp [bumpStat, statLookup, Ne.symm h]
    · by_cases hma : m = a
      · subst hma
        simp [bumpStat, statLookup, hmn]
      · simp [bumpStat, statLookup, hmn, hma, ih]

/-- Folding one profile's attribute items adds that profile's occurrence and
truthy-occurrence counts to the accumulated pair of each attribute. -/
lemma statLookup_profileStats (st : List (String × Nat × Nat)) (r : PyDict)
    (a : String) :
    statLookup (profileStats st r) a =
      ((statLookup st a).1 +
        (attrItems r).countP (fun av => av.1 == a && pyTruthy av.2),
       (statLookup st a).2 + (attrItems r).countP (fun av => av.1 == a)) := by
  rw [profileStats]
  generalize attrItems r = l
  induction l generalizing st with
  | nil => simp
  | cons av rest ih =>
    simp only [List.foldl_cons, List.countP_cons]
    rw [ih (bumpStat st av.1 (pyTruthy av.2))]
    by_cases h : av.1 = a
    · subst h
      rw [statLookup_bumpStat_eq]
      cases hT : pyTruthy av.2 <;> simp [hT, Prod.mk.injEq] <;> omega
    · have hb : (av.1 == a) = false := beq_eq_false_iff_ne.mpr h
      rw [statLookup_bumpStat_ne st av.1 _ a (Ne.symm h)]
      simp [hb]

/-- Folding a list of profiles accumulates the per-profile counts. -/
lemma statLookup_foldl_profiles (l : List PyDict)
    (st : List (String × Nat × Nat)) (a : String) :
    statLookup (l.foldl profileStats st) a =
      ((statLookup st a).1 + (l.map (fun r =>
        (attrItems r).countP (fun av => av.1 == a && pyTruthy av.2))).sum,
       (statLookup st a).2 + (l.map (fun r =>
        (attrItems r).countP (fun av => av.1 == a))).sum) := by
  induction l generalizing st with
  | nil => simp
  | cons r rest ih =>
    simp only [List.foldl_cons, List.map_cons, List.sum_cons]
    rw [ih (profileStats st r), statLookup_profileStats]
    simp only [Prod.mk.injEq]
    constructor <;> omega

/-- Claim C8: the summary report's per-attribute statistics are computed over
the successful profiles only — for every attribute name, the accumulated
total is the occurrence count of that attribute among profiles whose
`error` is `None` (failed profiles are excluded from the denominator), the
accumulated filled count likewise, every published completion entry is the
exact ratio `filled / total` of an accumulated pair, and the report lists
exactly the failed items, each with its error value. -/
theorem c8_report_stats (results : List PyDict) (a : String) :
    (statLookup (attributeStats results) a).2 =
      ((results.filter successB).map (fun r =>
        (attrItems r).countP (fun av => av.1 == a))).sum ∧
    (statLookup (attributeStats results) a).1 =
      ((results.filter successB).map (fun r =>
        (attrItems r).countP (fun av => av.1 == a && pyTruthy av.2))).sum ∧
    (∀ nm rate fi tot,
      (nm, rate, fi, tot) ∈
          (generate_summary_report results).attribute_completion →
      rate = (fi : ℚ) / (tot : ℚ) ∧ 0 < tot ∧
        (nm, fi, tot) ∈ attributeStats results) ∧
    (generate_summary_report results).failed_products =
      (results.filter (fun r => !(successB r))).map
        (fun r => (pyGet r "product_name", pyGet r "error")) ∧
    (∀ r ∈ results, successB r = false →
      (pyGet r "product_name", pyGet r "error") ∈
        (generate_summary_report results).failed_products) := by
  have hfold := statLookup_foldl_profiles (results.filter successB) [] a
  rw [show statLookup [] a = (0, 0) from rfl] at hfold
  simp only [Nat.zero_add] at hfold
  refine ⟨?_, ?_, ?_, rfl, ?_⟩
  · rw [attributeStats, hfold]
  · rw [attributeStats, hfold]
  · intro nm rate fi tot hmem
    simp only [generate_summary_report, List.mem_filterMap] at hmem
    obtain ⟨s, hs, hif⟩ := hmem
    by_cases hpos : 0 < s.2.2
    · rw [if_pos hpos] at hif
      obtain ⟨h1, h2, h3, h4⟩ :
          s.1 = nm ∧ ((s.2.1 : ℚ) / (s.2.2 : ℚ)) = rate ∧ s.2.1 = fi ∧
            s.2.2 = tot := by
        have h := Option.some.inj hif
        exact ⟨congrArg Prod.fst h, congrArg (fun x => x.2.1) h,
          congrArg (fun x => x.2.2.1) h, congrArg (fun x => x.2.2.2) h⟩
      subst h1
      subst h3
      subst h4
      exact ⟨h2.symm, hpos, by simpa using hs⟩
    · rw [if_neg hpos] at hif
      cases hif
  · intro r hr hf
    simp only [generate_summary_report]
    exact List.mem_map_of_mem _
      (List.mem_filter.mpr ⟨hr, by simp [hf]⟩)

theorem c8_report_stats_witness :
    (statLookup (attributeStats [noImagesProfile "B" "/p", exProfile])
        "Color").2 =
      (([noImagesProfile "B" "/p", exProfile].filter successB).map (fun r =>
        (attrItems r).countP (fun av => av.1 == "Color"))).sum ∧
    (pyGet (noImagesProfile "B" "/p") "product_name",
      pyGet (noImagesProfile "B" "/p") "error") ∈
      (generate_summary_report
        [noImagesProfile "B" "/p", exProfile]).failed_products :=
  ⟨(c8_report_stats [noImagesProfile "B" "/p", exProfile] "Color").1,
   (c8_report_stats [noImagesProfile "B" "/p", exProfile] "Color").2.2.2.2
     (noImagesProfile "B" "/p") (by simp) rfl⟩

/-! ### Claim C9 (CSV export layout) -/

instance : IsTotal String strLe :=
  ⟨fun a b => le_total a.data b.data⟩

instance : IsTrans String strLe :=
  ⟨fun _ _ _ hab hbc => le_trans hab hbc⟩

instance : IsAntisymm String strLe :=
  ⟨fun a b hab hba => by
    have h := le_antisymm hab hba
    cases a
    cases b
    exact congrArg String.mk h⟩

/-- Counterexample to C9: the exported header has FOUR fixed columns
(`Product Name, Description, Images Processed, Status`) before the sorted
attribute names, so for a profile carrying the 22-attribute catalog it has
26 columns and cannot be a three-column prefix followed by the sorted
catalog. -/
theorem c9_counterexample_header_prefix :
    (csvHeader [exProfile]).length = 26 ∧
    ¬ ∃ c : String, csvHeader [exProfile] =
      ["Product Name", "Description", c] ++
        List.insertionSort strLe ATTRIBUTES := by
  have hlen : (csvHeader [exProfile]).length = 26 := by decide
  refine ⟨hlen, ?_⟩
  rintro ⟨c, hc⟩
  have h3 : (["Product Name", "Description", c] ++
      List.insertionSort strLe ATTRIBUTES).length = 25 := by
    simp only [List.length_append, List.length_insertionSort]
    rfl
  rw [hc, h3] at hlen
  exact absurd hlen (by decide)

/-- Claim C9 as amended: the CSV header is the FOUR fixed columns
`[Product Name, Description, Images Processed, Status]` (an image-count
column and a status column) followed by the observed attribute names,
distinct and in ascending string order; each data row is its four fixed
cells followed by the attribute cells in that same sorted order; a stored
null attribute value is written as the empty string; and when every
profile's attribute keys lie in the catalog and some profile carries the
full catalog, the sorted attribute names are exactly the sorted catalog. -/
theorem c9_csv_export_amended (results : List PyDict) (prod : PyDict)
    (_hmem : prod ∈ results) :
    csvHeader results =
      ["Product Name", "Description", "Images Processed", "Status"] ++
        sortedAttrNames results ∧
    (sortedAttrNames results).Sorted strLe ∧
    (sortedAttrNames results).Nodup ∧
    (∀ a, a ∈ sortedAttrNames results ↔ ∃ r ∈ results, a ∈ attrKeysOf r) ∧
    csvRow (sortedAttrNames results) prod =
      csvFixedCells prod ++ (sortedAttrNames results).map (attrCell prod) ∧
    (∀ a, attrCell prod a = Json.null → csvCell (attrCell prod a) = "") ∧
    ((∀ r ∈ results, attrKeysOf r ⊆ ATTRIBUTES) →
      (∃ r ∈ results, attrKeysOf r = ATTRIBUTES) →
      sortedAttrNames results = List.insertionSort strLe ATTRIBUTES) := by
  refine ⟨rfl, List.sorted_insertionSort strLe _, ?_, ?_, rfl, ?_, ?_⟩
  · rw [sortedAttrNames]
    exact ((List.perm_insertionSort strLe _).nodup_iff).mpr
      (List.nodup_dedup _)
  · intro a
    simp [sortedAttrNames, List.mem_insertionSort, List.mem_dedup,
      List.mem_flatten]
  · intro a h
    rw [h]
    rfl
  · intro hsub hex
    obtain ⟨r0, hr0, hkeys⟩ := hex
    have hd : ((results.map attrKeysOf).flatten.dedup).Perm ATTRIBUTES := by
      rw [List.perm_ext_iff_of_nodup (List.nodup_dedup _) (by decide)]
      intro x
      constructor
      · intro hx
        rw [List.mem_dedup, List.mem_flatten] at hx
        obtain ⟨l, hl, hxl⟩ := hx
        obtain ⟨r, hr, rfl⟩ := List.mem_map.mp hl
        exact hsub r hr hxl
      · intro hx
        rw [List.mem_dedup, List.mem_flatten]
        exact ⟨attrKeysOf r0, List.mem_map_of_mem _ hr0, hkeys ▸ hx⟩
    have hperm : (sortedAttrNames results).Perm
        (List.insertionSort strLe ATTRIBUTES) :=
      ((List.perm_insertionSort strLe _).trans hd).trans
        (List.perm_insertionSort strLe ATTRIBUTES).symm
    exact List.eq_of_perm_of_sorted hperm
      (List.sorted_insertionSort strLe _)
      (List.sorted_insertionSort strLe ATTRIBUTES)

theorem c9_csv_export_amended_witness :
    csvHeader [exProfile] =
      ["Product Name", "Description", "Images Processed", "Status"] ++
        sortedAttrNames [exProfile] ∧
    sortedAttrNames [exProfile] = List.insertionSort strLe ATTRIBUTES :=
  ⟨(c9_csv_export_amended [exProfile] exProfile (by simp)).1,
   (c9_csv_export_amended [exProfile] exProfile (by simp)).2.2.2.2.2.2
     (by
       intro r hr
       rw [List.mem_singleton] at hr
       subst hr
       decide)
     ⟨exProfile, by simp, by decide⟩⟩
